import Mathlib

/-!
# Verification of the yggdrasil_selfhost session-authority proxy

Shallow embedding of `src/main.rs`: the session store (`recordJoin` /
`checkJoin` as the spec names the inline store logic of `join_handler` and
`has_joined_handler`), the account resolver (`AccountServerKind.get`), the
two HTTP handlers, startup loading of the session file, and the
configuration paths.  Network calls are modelled by oracle parameters that
supply the remote side's answer; Rust `u64` arithmetic is modelled on `Nat`
with explicit wrap-around where the source can overflow.
-/

deriving instance DecidableEq for Except

namespace Ygg

/-- Association-list lookup, first match wins (models `HashMap::get`;
a `HashMap` never holds duplicate keys, which `StoreWF` records below). -/
def alookup {α : Type} (k : String) : List (String × α) → Option α
  | [] => none
  | (k', v) :: rest => if k' = k then some v else alookup k rest

/-- Association-list insert-or-overwrite (models `HashMap::insert`). -/
def ainsert {α : Type} (k : String) (v : α) (m : List (String × α)) : List (String × α) :=
  (k, v) :: m.filter (fun p => p.1 ≠ k)

/-- One profile's recent activity (struct `Session` in main.rs):
`uuid` is the profile identity, `servers` maps a server token to the Unix
timestamp (seconds) at which that server was joined. -/
structure Session where
  uuid : String
  servers : List (String × Nat)
  deriving Repr, DecidableEq

/-- The in-memory session table: lower-cased username ↦ `Session`
(the `HashMap<String, Session>` behind `SessionMap`). -/
abbrev Store := List (String × Session)

/-- Well-formedness a Rust `HashMap` guarantees: no duplicate keys, at the
store level and inside every session's `servers` map. -/
def StoreWF (st : Store) : Prop :=
  (st.map Prod.fst).Nodup ∧ ∀ p ∈ st, (p.2.servers.map Prod.fst).Nodup

instance : DecidablePred StoreWF := fun st => by
  unfold StoreWF; infer_instance

/-- Rust `u64` wrapping subtraction (`a - b` in release mode); both
arguments are reduced mod 2^64 as `u64` values always are. -/
def wsub (a b : Nat) : Nat :=
  (a % 18446744073709551616 + (18446744073709551616 - b % 18446744073709551616)) %
    18446744073709551616

/-- Models Rust `str::to_lowercase` (ASCII fragment, which is all the
claims exercise); character-list form of `String.toLower`. -/
def lowercase (s : String) : String := ⟨s.data.map Char.toLower⟩

/-- Operation `checkJoin(username, serverToken, now)` — the session lookup of
`has_joined_handler` (main.rs:217-235): lower-case the username, find the
session, find the token's timestamp, succeed iff `timestamp >= now - 60`
(Rust `u64` subtraction, hence `wsub`). -/
def checkJoin (st : Store) (username serverToken : String) (now : Nat) : Option String :=
  match alookup (lowercase username) st with
  | none => none
  | some sess =>
    match alookup serverToken sess.servers with
    | none => none
    | some t => if wsub now 60 ≤ t then some sess.uuid else none

/-- Rust `session.servers.retain(|_, t| now.saturating_sub(t) <= 60)` applied
to one session (Rust saturating subtraction is `Nat` subtraction). -/
def pruneSession (now : Nat) (sess : Session) : Session :=
  { sess with servers := sess.servers.filter (fun q => now - q.2 ≤ 60) }

/-- The global prune pass of `join_handler` (main.rs:164-166): every
session retains only the server entries with `now.saturating_sub(t) <= 60`. -/
def prune (now : Nat) (st : Store) : Store :=
  st.map (fun p => (p.1, pruneSession now p.2))

/-- The path `join_handler` writes the serialized store to
(main.rs:180): a hard-coded literal, independent of the `--sessions`
flag. -/
def sessionsWritePath : String := "sessions.json"

/-- Operation `recordJoin(username, profileId, serverToken, now)` — the store
mutation of `join_handler` (main.rs:160-181): prune globally, fetch or
create the session under the lower-cased username (`entry(..).or_insert`
keeps an existing session's `uuid`), insert `serverToken ↦ now`, and write
the whole table to `"sessions.json"` (the write path is hard-coded at
main.rs:180).  Returns the new store and the file write performed. -/
def recordJoin (st : Store) (username profileId serverToken : String) (now : Nat) :
    Store × (String × Store) :=
  let u := lowercase username
  let st1 := prune now st
  let st2 := if (alookup u st1).isSome then st1
             else ainsert u { uuid := profileId, servers := [] } st1
  let st3 := match alookup u st2 with
             | some sess => ainsert u { sess with servers := ainsert serverToken now sess.servers } st2
             | none => st2
  (st3, (sessionsWritePath, st3))

/-- A transport-level failure of an HTTP call (connection, TLS, or HTTP
error from `reqwest`). -/
inductive TransportError
  | connect
  | tls
  | http
  deriving Repr, DecidableEq

/-- A Rust `unwrap()`/`expect()` on an `Err` value: the handler task
panics and no HTTP response is produced for the caller. -/
inductive RustPanic
  | unwrapPanic
  deriving Repr, DecidableEq

/-- The JSON body of `POST /session/minecraft/join`
(struct `JoinRequest` in main.rs). -/
structure JoinRequest where
  selectedProfile : String
  serverId : String
  authString : Option String
  deriving Repr, DecidableEq

/-- The two account backends (enum `AccountServerKind` in main.rs). -/
inductive AccountServerKind
  | API (secret : Option String) (endpoint : String)
  | File (table : List (String × String))

/-- What the account endpoint's HTTP response looks like to the remote
variant of `AccountServerKind::get`: its status code, and `some u` exactly
when the body deserializes as the struct `Res { username }` (serde ignores
unknown fields), i.e. a JSON object with a `username` field. -/
structure ApiLookupResult where
  status : Nat
  parsedUsername : Option String
  deriving Repr, DecidableEq

/-- Method `AccountServerKind::get` (main.rs:53-74).  The remote variant sends a
GET whose outcome is the oracle `http`; a transport error returns `none`
(`let Ok(resp) = resp else return None`), and otherwise the body is fed to
`resp.json::<Res>().ok()` — note the status code is never inspected.  The
static variant is a pure table lookup. -/
def AccountServerKind.get (a : AccountServerKind)
    (http : Except TransportError ApiLookupResult) (k : String) : Option String :=
  match a with
  | .API _ _ =>
    match http with
    | .error _ => none
    | .ok r => r.parsedUsername
  | .File table => alookup k table

/-- One request made to the upstream authority (never to the account
endpoint, which `AccountServerKind.get` owns): the four upstream HTTP
calls the two handlers can issue. -/
inductive UpstreamCall
  | profileFetch (profileName : String)
  | joinForward (body : JoinRequest)
  | profileRefetch (uuid : String)
  | hasJoinedForward (serverId username : String)
  deriving Repr, DecidableEq

/-- The status `join_handler` returns. -/
inductive JoinStatus
  | noContent
  | unauthorized
  | serviceUnavailable
  | passThrough (code : Nat)
  deriving Repr, DecidableEq

/-- Numeric HTTP status of a `JoinStatus`. -/
def JoinStatus.code : JoinStatus → Nat
  | .noContent => 204
  | .unauthorized => 401
  | .serviceUnavailable => 503
  | .passThrough c => c

/-- Everything observable about one handler invocation: the response (or a
panic), the session store afterwards, the upstream-authority calls made,
and the file writes performed (path, serialized table). -/
structure HandlerOut (ρ : Type) where
  response : Except RustPanic ρ
  store : Store
  upstream : List UpstreamCall
  writes : List (String × Store)
  deriving Repr, DecidableEq

/-- Handler `join_handler` (main.rs:131-201).  Oracles: `dns` is the trusted-DNS
resolution of the authority's address (`resolve_mojang_ip`, unwrapped at
main.rs:136); `accountsGet` is `accounts.get(&auth)`; `upstreamProfile` is
the GET of `profile/<selectedProfile>` — `.ok (some name)` when the JSON
body has a string field `name`, `.ok none` when the field is absent or not
a string (→ 503), `.error` when `send()`/`json()` fail (→ both unwraps
panic); `upstreamJoin` is the status of the forwarded `POST join`
(`.error` when `send()` fails → unwrap panics). -/
def join_handler (dns : Except TransportError Unit)
    (accountsGet : String → Option String)
    (upstreamProfile : Except TransportError (Option String))
    (upstreamJoin : Except TransportError Nat)
    (st : Store) (payload : JoinRequest) (now : Nat) : HandlerOut JoinStatus :=
  match dns with
  | .error _ => ⟨.error .unwrapPanic, st, [], []⟩
  | .ok _ =>
    match payload.authString with
    | some auth =>
      match accountsGet auth with
      | some stored_profile =>
        if stored_profile = payload.selectedProfile then
          match upstreamProfile with
          | .error _ =>
            ⟨.error .unwrapPanic, st, [.profileFetch payload.selectedProfile], []⟩
          | .ok none =>
            ⟨.ok .serviceUnavailable, st, [.profileFetch payload.selectedProfile], []⟩
          | .ok (some name) =>
            let r := recordJoin st name payload.selectedProfile payload.serverId now
            ⟨.ok .noContent, r.1, [.profileFetch payload.selectedProfile], [r.2]⟩
        else ⟨.ok .unauthorized, st, [], []⟩
      | none => ⟨.ok .unauthorized, st, [], []⟩
    | none =>
      match upstreamJoin with
      | .error _ => ⟨.error .unwrapPanic, st, [.joinForward payload], []⟩
      | .ok code => ⟨.ok (.passThrough code), st, [.joinForward payload], []⟩

/-- Handler `has_joined_handler` (main.rs:203-252).  Oracles: `dns` as in
`join_handler` (main.rs:207); `profileRefetch` is the signed-profile GET of
the hit path (status, body; `.error` when `send()`/`text()` fail → unwrap
panics); `forward` is the forwarded `hasJoined` GET of the miss path.  The
session check is exactly `checkJoin`; the store is only read. -/
def has_joined_handler (dns : Except TransportError Unit)
    (profileRefetch : Except TransportError (Nat × String))
    (forward : Except TransportError (Nat × String))
    (st : Store) (username serverId : String) (now : Nat) : HandlerOut (Nat × String) :=
  match dns with
  | .error _ => ⟨.error .unwrapPanic, st, [], []⟩
  | .ok _ =>
    match checkJoin st username serverId now with
    | some uuid =>
      match profileRefetch with
      | .error _ => ⟨.error .unwrapPanic, st, [.profileRefetch uuid], []⟩
      | .ok r => ⟨.ok r, st, [.profileRefetch uuid], []⟩
    | none =>
      match forward with
      | .error _ =>
        ⟨.error .unwrapPanic, st, [.hasJoinedForward serverId (lowercase username)], []⟩
      | .ok r => ⟨.ok r, st, [.hasJoinedForward serverId (lowercase username)], []⟩

/-- The command-line flags (struct `Args` in main.rs), paths as strings. -/
structure Args where
  accounts : Option String
  sessions : Option String
  endpoint : Option String
  api : Bool
  deriving Repr, DecidableEq

/-- The path the session store is loaded from at startup
(main.rs:102): the `--sessions` flag, defaulting to `"sessions.json"`. -/
def sessionsLoadPath (args : Args) : String := args.sessions.getD "sessions.json"

/-- Startup loading of the session store (main.rs:103-105):
`serde_json::from_str(&fs::read_to_string(path).unwrap()).unwrap_or_default()`.
`readResult` is `none` when the file is absent/unreadable — that inner
`unwrap()` panics and startup aborts; `parsed` models `serde_json::from_str`
(`none` = unparseable), whose failure falls back to the empty table. -/
def loadSessions (readResult : Option String) (parsed : String → Option Store) :
    Except RustPanic Store :=
  match readResult with
  | none => .error .unwrapPanic
  | some s => .ok ((parsed s).getD [])

end Ygg

namespace Ygg

/-! ## Helper lemmas about the association-list operations -/

theorem alookup_eq_none_of_not_mem {α : Type} (k : String) (m : List (String × α))
    (h : k ∉ m.map Prod.fst) : alookup k m = none := by
  induction m with
  | nil => rfl
  | cons a rest ih =>
    simp only [List.map_cons, List.mem_cons, not_or] at h
    have hne : a.1 ≠ k := fun e => h.1 e.symm
    simp only [alookup, if_neg hne, ih h.2]

theorem alookup_filter_none_of_none {α : Type} (k : String) (P : String × α → Bool)
    (m : List (String × α)) (h : alookup k m = none) : alookup k (m.filter P) = none := by
  induction m with
  | nil => rfl
  | cons a rest ih =>
    simp only [alookup] at h
    by_cases hk : a.1 = k
    · simp [hk] at h
    · rw [if_neg hk] at h
      rw [List.filter_cons]
      by_cases hP : P a
      · simp only [if_pos hP, alookup, if_neg hk, ih h]
      · simp only [hP, if_neg, ih h, Bool.false_eq_true, ↓reduceIte]

theorem alookup_filter_of_ne {α : Type} (k k₀ : String) (m : List (String × α)) (h : k ≠ k₀) :
    alookup k (m.filter (fun p => p.1 ≠ k₀)) = alookup k m := by
  induction m with
  | nil => rfl
  | cons a rest ih =>
    simp only [decide_not] at ih
    by_cases hk : a.1 = k₀
    · have hka : a.1 ≠ k := fun e => h (e.symm.trans hk)
      simp [List.filter_cons, hk, alookup, hka, ih, Ne.symm h]
    · simp [List.filter_cons, hk, alookup, ih]

theorem alookup_ainsert_self {α : Type} (k : String) (v : α) (m : List (String × α)) :
    alookup k (ainsert k v m) = some v := by
  simp [ainsert, alookup]

theorem alookup_ainsert_ne {α : Type} (k k' : String) (v : α) (m : List (String × α))
    (h : k' ≠ k) : alookup k' (ainsert k v m) = alookup k' m := by
  simp only [ainsert, alookup]
  rw [if_neg (Ne.symm h)]
  exact alookup_filter_of_ne k' k m h

/-- With no duplicate keys, filtering out the unique binding of `k`
leaves no binding of `k`. -/
theorem alookup_filter_none_of_stale {α : Type} (k : String) (P : String × α → Bool)
    (m : List (String × α)) (hnd : (m.map Prod.fst).Nodup) (t : α)
    (hl : alookup k m = some t) (hP : P (k, t) = false) :
    alookup k (m.filter P) = none := by
  induction m with
  | nil => simp [alookup] at hl
  | cons a rest ih =>
    simp only [List.map_cons, List.nodup_cons] at hnd
    by_cases hk : a.1 = k
    · simp only [alookup, if_pos hk, Option.some.injEq] at hl
      have ha : a = (k, t) := by
        obtain ⟨a1, a2⟩ := a; simp_all
      have hrest : alookup k rest = none :=
        alookup_eq_none_of_not_mem k rest (hk ▸ hnd.1)
      rw [List.filter_cons, ha, hP]
      simp only [Bool.false_eq_true, ↓reduceIte]
      exact alookup_filter_none_of_none k P rest hrest
    · simp only [alookup, if_neg hk] at hl
      rw [List.filter_cons]
      by_cases hPa : P a
      · simp only [if_pos hPa, alookup, if_neg hk]
        exact ih hnd.2 hl
      · simp only [hPa, Bool.false_eq_true, ↓reduceIte]
        exact ih hnd.2 hl

theorem alookup_prune (k : String) (now : Nat) (st : Store) :
    alookup k (prune now st) = (alookup k st).map (pruneSession now) := by
  induction st with
  | nil => rfl
  | cons a rest ih =>
    simp only [prune, List.map_cons, alookup] at *
    by_cases hk : a.1 = k
    · simp [hk]
    · simp [hk, ih]

theorem mem_of_alookup {α : Type} (k : String) (m : List (String × α)) (v : α)
    (h : alookup k m = some v) : (k, v) ∈ m := by
  induction m with
  | nil => simp [alookup] at h
  | cons a rest ih =>
    by_cases hk : a.1 = k
    · simp only [alookup, if_pos hk, Option.some.injEq] at h
      obtain ⟨a1, a2⟩ := a
      simp_all
    · simp only [alookup, if_neg hk] at h
      exact List.mem_cons_of_mem a (ih h)

/-- Rust `u64` wrapping subtraction agrees with `Nat` subtraction once the
minuend is at least the subtrahend (and a genuine `u64`). -/
theorem wsub_eq_sub (a b : Nat) (hb : b ≤ a) (ha : a < 18446744073709551616)
    (hb' : b < 18446744073709551616) : wsub a b = a - b := by
  unfold wsub
  omega

/-! ## Helper lemmas about `recordJoin` -/

theorem recordJoin_lookup_self_some (st : Store) (u p s : String) (now : Nat) (sess : Session)
    (h : alookup (lowercase u) st = some sess) :
    alookup (lowercase u) (recordJoin st u p s now).1 =
      some { uuid := sess.uuid,
             servers := ainsert s now (sess.servers.filter (fun q => now - q.2 ≤ 60)) } := by
  unfold recordJoin
  have h1 : alookup (lowercase u) (prune now st) = some (pruneSession now sess) := by
    rw [alookup_prune, h]; rfl
  simp only [h1, Option.isSome_some, if_pos, alookup_ainsert_self]
  rfl

theorem recordJoin_lookup_self_none (st : Store) (u p s : String) (now : Nat)
    (h : alookup (lowercase u) st = none) :
    alookup (lowercase u) (recordJoin st u p s now).1 =
      some { uuid := p, servers := [(s, now)] } := by
  unfold recordJoin
  have h1 : alookup (lowercase u) (prune now st) = none := by
    rw [alookup_prune, h]; rfl
  simp only [h1, Option.isSome_none, Bool.false_eq_true, ↓reduceIte, alookup_ainsert_self,
    alookup_ainsert_self]
  rfl

theorem recordJoin_lookup_other (st : Store) (u p s : String) (now : Nat) (k : String)
    (h : k ≠ lowercase u) :
    alookup k (recordJoin st u p s now).1 = (alookup k st).map (pruneSession now) := by
  unfold recordJoin
  rcases h1 : alookup (lowercase u) (prune now st) with _ | sess
  · simp only [h1, Option.isSome_none, Bool.false_eq_true, ↓reduceIte, alookup_ainsert_self]
    rw [alookup_ainsert_ne _ _ _ _ h, alookup_ainsert_ne _ _ _ _ h, alookup_prune]
  · simp only [h1, Option.isSome_some, if_pos]
    rw [alookup_ainsert_ne _ _ _ _ h, alookup_prune]

/-! ## Helper lemmas about `checkJoin` -/

theorem checkJoin_of_lookup_none (st : Store) (u s : String) (now : Nat)
    (h : alookup (lowercase u) st = none) : checkJoin st u s now = none := by
  unfold checkJoin
  rw [h]

theorem checkJoin_of_lookup_some (st : Store) (u s : String) (now : Nat) (sess : Session)
    (h : alookup (lowercase u) st = some sess) :
    checkJoin st u s now =
      match alookup s sess.servers with
      | none => none
      | some t => if wsub now 60 ≤ t then some sess.uuid else none := by
  unfold checkJoin
  rw [h]

theorem checkJoin_of_server_none (st : Store) (u s : String) (now : Nat) (sess : Session)
    (h : alookup (lowercase u) st = some sess) (hs : alookup s sess.servers = none) :
    checkJoin st u s now = none := by
  rw [checkJoin_of_lookup_some st u s now sess h, hs]

theorem checkJoin_of_server_some (st : Store) (u s : String) (now : Nat) (sess : Session)
    (t : Nat) (h : alookup (lowercase u) st = some sess)
    (hs : alookup s sess.servers = some t) :
    checkJoin st u s now = if wsub now 60 ≤ t then some sess.uuid else none := by
  rw [checkJoin_of_lookup_some st u s now sess h, hs]

/-! ## Claims -/

/-- C4: a join request whose `authString` resolves to no account, or to a
name that does not case-sensitively equal `selectedProfile`, returns 401
Unauthorized, makes no upstream-authority call, and leaves the session
store and its persisted file unchanged (DNS resolution of the authority's
address, which main.rs:136 performs unconditionally, is assumed to
succeed). -/
theorem C4_unknown_credential_unauthorized
    (accountsGet : String → Option String)
    (upstreamProfile : Except TransportError (Option String))
    (upstreamJoin : Except TransportError Nat)
    (st : Store) (payload : JoinRequest) (now : Nat) (auth : String)
    (hauth : payload.authString = some auth)
    (hres : accountsGet auth = none ∨
      ∃ n, accountsGet auth = some n ∧ n ≠ payload.selectedProfile) :
    join_handler (.ok ()) accountsGet upstreamProfile upstreamJoin st payload now =
      { response := .ok .unauthorized, store := st, upstream := [], writes := [] } ∧
    JoinStatus.unauthorized.code = 401 := by
  refine ⟨?_, rfl⟩
  unfold join_handler
  rcases hres with hnone | ⟨n, hn, hne⟩
  · simp [hauth, hnone]
  · simp [hauth, hn, hne]

/-- Witness for C4 at a concrete unknown credential. -/
theorem C4_witness :
    join_handler (.ok ()) (fun _ => none) (.ok none) (.ok 0) []
        { selectedProfile := "Alice", serverId := "srv", authString := some "tok" } 0 =
      { response := .ok .unauthorized, store := [], upstream := [], writes := [] } ∧
    JoinStatus.unauthorized.code = 401 :=
  C4_unknown_credential_unauthorized (fun _ => none) (.ok none) (.ok 0) []
    { selectedProfile := "Alice", serverId := "srv", authString := some "tok" } 0 "tok"
    rfl (Or.inl rfl)

/-- C5: a join request with no `authString` is forwarded with its (parsed)
request body to the upstream join endpoint, the upstream's status code is
returned unchanged, and no session is recorded (store and persisted file
untouched). -/
theorem C5_passthrough_join
    (accountsGet : String → Option String)
    (upstreamProfile : Except TransportError (Option String))
    (st : Store) (payload : JoinRequest) (now code : Nat)
    (hauth : payload.authString = none) :
    join_handler (.ok ()) accountsGet upstreamProfile (.ok code) st payload now =
      { response := .ok (.passThrough code), store := st,
        upstream := [.joinForward payload], writes := [] } ∧
    (JoinStatus.passThrough code).code = code := by
  refine ⟨?_, rfl⟩
  unfold join_handler
  simp [hauth]

/-- Witness for C5: a stub upstream answering 403 is relayed as 403. -/
theorem C5_witness :
    join_handler (.ok ()) (fun _ => none) (.ok none) (.ok 403) []
        { selectedProfile := "Alice", serverId := "srv", authString := none } 0 =
      { response := .ok (.passThrough 403), store := [],
        upstream := [.joinForward { selectedProfile := "Alice", serverId := "srv",
                                    authString := none }],
        writes := [] } ∧
    (JoinStatus.passThrough 403).code = 403 :=
  C5_passthrough_join (fun _ => none) (.ok none) []
    { selectedProfile := "Alice", serverId := "srv", authString := none } 0 403 rfl

/-- C6 (code bug evidence): on an upstream transport error both handlers
hit `.unwrap()` and panic — the request task dies with no HTTP response —
instead of answering with the 503/UpstreamUnavailable class the spec
assigns to such failures. -/
theorem C6_transport_error_panics :
    (join_handler (.ok ()) (fun _ => none) (.ok none) (.error .connect) []
        { selectedProfile := "Alice", serverId := "srv", authString := none } 0).response =
      .error .unwrapPanic ∧
    (has_joined_handler (.ok ()) (.ok (200, "")) (.error .connect) [] "alice" "srv" 0).response =
      .error .unwrapPanic ∧
    (Except.error .unwrapPanic : Except RustPanic JoinStatus) ≠ .ok .serviceUnavailable := by
  decide

/-- C7 (counterexample): the remote account lookup never inspects the
HTTP status — a 404 response whose body still parses as `Res { username }`
yields `some "bob"`, where the claim demands nothing for any non-2xx
status. -/
theorem C7_counterexample :
    AccountServerKind.get (.API none "https://accounts.example")
        (.ok { status := 404, parsedUsername := some "bob" }) "tok" = some "bob" ∧
    ¬ (200 ≤ 404 ∧ 404 < 300) := by
  decide

/-- C7 (amended): the remote-lookup resolver returns nothing exactly on a
transport failure or a body that does not parse as an object with a
`username` field; otherwise it returns the parsed username regardless of
the response status, and no failure cause is distinguished for the
caller. -/
theorem C7_api_get_ignores_status (secret : Option String) (endpoint k : String) :
    (∀ e : TransportError,
      AccountServerKind.get (.API secret endpoint) (.error e) k = none) ∧
    (∀ r : ApiLookupResult,
      AccountServerKind.get (.API secret endpoint) (.ok r) k = r.parsedUsername) :=
  ⟨fun _ => rfl, fun _ => rfl⟩

/-- C8 (code bug evidence): at startup an absent/unreadable session file
panics (`fs::read_to_string(..).unwrap()`, main.rs:104) instead of
starting with an empty store; only an unparseable file is non-fatal. -/
theorem C8_absent_file_panics :
    loadSessions none (fun _ => none) = .error .unwrapPanic ∧
    loadSessions (some "not json") (fun _ => none) = .ok [] := by
  decide

/-- C9 (code bug evidence): the store is loaded from the configured
`--sessions` path but every `recordJoin` writes the hard-coded
`"sessions.json"` (main.rs:180), so with `--sessions custom.json` the
persisted file is not the one the store was loaded from. -/
theorem C9_write_path_fixed :
    sessionsLoadPath { accounts := none, sessions := some "custom.json",
                       endpoint := none, api := false } = "custom.json" ∧
    sessionsWritePath = "sessions.json" ∧
    ("custom.json" : String) ≠ "sessions.json" ∧
    (recordJoin [] "alice" "X" "srv" 100).2.1 = "sessions.json" := by
  decide

/-- C1 (counterexample): two concrete violations of the claim as stated.
First, with a pre-existing session for `"alice"` holding uuid `"X"`, a
`recordJoin` asserting `"Y"` followed by an in-window `checkJoin` returns
the old `"X"`, not the profileId `"Y"` passed to the recordJoin
(`entry(..).or_insert` keeps the stored uuid).  Second, at clock `now = 0`
the `u64` computation `now - 60` in `has_joined_handler` wraps, so even an
immediate `checkJoin` of a just-recorded join returns nothing. -/
theorem C1_counterexample :
    (checkJoin (recordJoin [("alice", { uuid := "X", servers := [] })]
          "Alice" "Y" "srv" 100).1 "alice" "srv" 100 = some "X" ∧
      checkJoin (recordJoin [("alice", { uuid := "X", servers := [] })]
          "Alice" "Y" "srv" 100).1 "alice" "srv" 100 ≠ some "Y") ∧
    checkJoin (recordJoin [] "alice" "X" "srv" 0).1 "alice" "srv" 0 = none := by
  decide

/-- C1 (amended): provided the lower-cased username had no prior session
whose profileId differs from the one passed, and the check time `now` is a
genuine post-1970-minute `u64` clock (`60 ≤ now < 2^64` — `now - 60` wraps
otherwise), a `checkJoin` with the same serverToken and a username equal
up to case, at most 60 seconds after the `recordJoin`, returns `some` of
the recorded profileId. -/
theorem C1_roundtrip
    (st : Store) (u u' p s : String) (t now : Nat)
    (hcase : lowercase u' = lowercase u)
    (hprof : ∀ sess, alookup (lowercase u) st = some sess → sess.uuid = p)
    (h60 : 60 ≤ now) (hlt : now < 18446744073709551616)
    (hrec : t ≤ now) (hwin : now ≤ t + 60) :
    checkJoin (recordJoin st u p s t).1 u' s now = some p := by
  have hws : wsub now 60 = now - 60 := wsub_eq_sub now 60 (by omega) hlt (by norm_num)
  rcases hsess : alookup (lowercase u) st with _ | sess
  · have h1 := recordJoin_lookup_self_none st u p s t hsess
    rw [← hcase] at h1
    have hl : alookup s [(s, t)] = some t := by simp [alookup]
    rw [checkJoin_of_server_some _ u' s now _ t h1 hl, hws, if_pos (by omega)]
  · have hu := hprof sess hsess
    have h1 := recordJoin_lookup_self_some st u p s t sess hsess
    rw [← hcase] at h1
    rw [checkJoin_of_server_some _ u' s now _ t h1 (alookup_ainsert_self s t _),
      hws, if_pos (by omega), hu]

/-- Witness for C1: record `("Alice", "srv")` at t = 70 into the empty
store, check as `"alice"` at now = 100. -/
theorem C1_witness :
    checkJoin (recordJoin [] "Alice" "Y" "srv" 70).1 "alice" "srv" 100 = some "Y" :=
  C1_roundtrip [] "Alice" "alice" "Y" "srv" 70 100 (by decide)
    (fun sess h => by simp [alookup] at h) (by norm_num) (by norm_num)
    (by norm_num) (by norm_num)

/-- C2 (counterexample): at clock `now = 0` a store holding a matching
fresh entry (`now - timestamp = 0 ≤ 60`) still answers nothing, because
`has_joined_handler` compares against the wrapped `u64` value `now - 60`;
the claimed iff fails at this input with `profileId = "X"`. -/
theorem C2_counterexample :
    checkJoin [("alice", { uuid := "X", servers := [("srv", 0)] })] "alice" "srv" 0 = none ∧
    alookup (lowercase "alice")
        ([("alice", { uuid := "X", servers := [("srv", 0)] })] : Store) =
      some { uuid := "X", servers := [("srv", 0)] } ∧
    alookup "srv" ([("srv", 0)] : List (String × Nat)) = some 0 ∧ 0 - 0 ≤ 60 := by
  decide

/-- C2 (amended): for a real clock (`60 ≤ now < 2^64`; otherwise the `u64`
subtraction `now - 60` wraps and the lookup misses), `checkJoin` returns
`some pid` iff a session exists under the lower-cased username whose
servers map holds the token with `now - timestamp ≤ 60`, and `pid` is that
session's profileId; and the surrounding `has_joined_handler` never
changes the store and writes no file, whatever the upstream oracles do. -/
theorem C2_checkJoin_characterisation
    (st : Store) (u s : String) (now : Nat) (pid : String)
    (h60 : 60 ≤ now) (hlt : now < 18446744073709551616) :
    (checkJoin st u s now = some pid ↔
      ∃ sess t, alookup (lowercase u) st = some sess ∧
        alookup s sess.servers = some t ∧ now - t ≤ 60 ∧ pid = sess.uuid) ∧
    (∀ dns profileRefetch forward,
      (has_joined_handler dns profileRefetch forward st u s now).store = st ∧
      (has_joined_handler dns profileRefetch forward st u s now).writes = []) := by
  have hws : wsub now 60 = now - 60 := wsub_eq_sub now 60 (by omega) hlt (by norm_num)
  constructor
  · cases hsess : alookup (lowercase u) st with
    | none =>
      rw [checkJoin_of_lookup_none st u s now hsess]
      constructor
      · intro h; exact absurd h (by simp)
      · rintro ⟨sess, t, hs, -, -, -⟩
        exact absurd hs (by simp)
    | some sess =>
      cases ht : alookup s sess.servers with
      | none =>
        rw [checkJoin_of_server_none st u s now sess hsess ht]
        constructor
        · intro h; exact absurd h (by simp)
        · rintro ⟨sess', t, hs, ht', -, -⟩
          rw [Option.some.injEq] at hs
          subst hs
          rw [ht] at ht'
          exact absurd ht' (by simp)
      | some t =>
        rw [checkJoin_of_server_some st u s now sess t hsess ht, hws]
        constructor
        · intro h
          by_cases hcond : now - 60 ≤ t
          · rw [if_pos hcond, Option.some.injEq] at h
            exact ⟨sess, t, rfl, ht, by omega, h.symm⟩
          · rw [if_neg hcond] at h
            exact absurd h (by simp)
        · rintro ⟨sess', t', hs, ht', hfresh, hpid⟩
          rw [Option.some.injEq] at hs
          subst hs
          rw [ht, Option.some.injEq] at ht'
          subst ht'
          rw [if_pos (by omega), hpid]
  · intro dns profileRefetch forward
    unfold has_joined_handler
    rcases dns with e | d
    · exact ⟨rfl, rfl⟩
    · cases hcj : checkJoin st u s now with
      | none => rcases forward with e | r <;> exact ⟨rfl, rfl⟩
      | some uuid => rcases profileRefetch with e | r <;> exact ⟨rfl, rfl⟩

/-- Witness for C2: a fresh entry at a real clock is found, and the
handler leaves the store as it was. -/
theorem C2_witness :
    checkJoin [("alice", { uuid := "X", servers := [("srv", 50)] })] "alice" "srv" 100 =
      some "X" ∧
    (has_joined_handler (.ok ()) (.ok (200, "profile")) (.ok (200, "fwd"))
        [("alice", { uuid := "X", servers := [("srv", 50)] })] "alice" "srv" 100).store =
      [("alice", { uuid := "X", servers := [("srv", 50)] })] :=
  ⟨(C2_checkJoin_characterisation [("alice", { uuid := "X", servers := [("srv", 50)] })]
      "alice" "srv" 100 "X" (by norm_num) (by norm_num)).1.mpr
      ⟨{ uuid := "X", servers := [("srv", 50)] }, 50, by decide, by decide, by norm_num, rfl⟩,
   ((C2_checkJoin_characterisation [("alice", { uuid := "X", servers := [("srv", 50)] })]
      "alice" "srv" 100 "X" (by norm_num) (by norm_num)).2
      (.ok ()) (.ok (200, "profile")) (.ok (200, "fwd"))).1⟩

/-- C3 (counterexample): when the very `(username, serverToken)` pair
being recorded is itself stale, the prune removes it but the same call
re-inserts it with timestamp `now`, so the subsequent `checkJoin` for that
pruned entry returns the profileId instead of nothing. -/
theorem C3_counterexample :
    100 - 0 > 60 ∧
    checkJoin (recordJoin [("alice", { uuid := "X", servers := [("srv", 0)] })]
        "alice" "X" "srv" 100).1 "alice" "srv" 100 = some "X" := by
  decide

/-- C3 (amended): `recordJoin` prunes every entry with
`now - timestamp > 60` from every session, then fetches or creates the
session for the lower-cased username — its profileId taken from this call
only when newly created — then inserts/overwrites `serverToken ↦ now`,
then hands the entire resulting store to the file write it returns; and a
`checkJoin` at time `now` for any pruned entry returns nothing, except
when that entry's `(lower-cased username, serverToken)` is exactly the
pair this call re-records. -/
theorem C3_recordJoin_spec
    (st : Store) (u p s : String) (now : Nat) (hwf : StoreWF st) :
    ((alookup (lowercase u) st = none →
        alookup (lowercase u) (recordJoin st u p s now).1 =
          some { uuid := p, servers := [(s, now)] }) ∧
     (∀ sess, alookup (lowercase u) st = some sess →
        alookup (lowercase u) (recordJoin st u p s now).1 =
          some { uuid := sess.uuid,
                 servers := ainsert s now
                   (sess.servers.filter (fun q => now - q.2 ≤ 60)) }) ∧
     (∀ k, k ≠ lowercase u →
        alookup k (recordJoin st u p s now).1 = (alookup k st).map (pruneSession now))) ∧
    (∀ ku u' s' sess' t, alookup ku st = some sess' →
        alookup s' sess'.servers = some t → now - t > 60 → lowercase u' = ku →
        (ku ≠ lowercase u ∨ s' ≠ s) →
        checkJoin (recordJoin st u p s now).1 u' s' now = none) ∧
    (recordJoin st u p s now).2 = (sessionsWritePath, (recordJoin st u p s now).1) := by
  refine ⟨⟨recordJoin_lookup_self_none st u p s now,
           fun sess h => recordJoin_lookup_self_some st u p s now sess h,
           fun k hk => recordJoin_lookup_other st u p s now k hk⟩, ?_, rfl⟩
  intro ku u' s' sess' t hku hs' hstale hlow hne
  have hnd : (sess'.servers.map Prod.fst).Nodup :=
    hwf.2 (ku, sess') (mem_of_alookup ku st sess' hku)
  have hPfalse : (fun q => decide (now - q.2 ≤ 60)) (s', t) = false := by
    simp only [decide_eq_false_iff_not]
    omega
  have hfiltered : alookup s' (sess'.servers.filter (fun q => now - q.2 ≤ 60)) = none :=
    alookup_filter_none_of_stale s' _ sess'.servers hnd t hs' hPfalse
  by_cases hk : ku = lowercase u
  · have hsne : s' ≠ s := by
      rcases hne with h | h
      · exact absurd hk h
      · exact h
    subst hk
    have h1 := recordJoin_lookup_self_some st u p s now sess' hku
    rw [← hlow] at h1
    refine checkJoin_of_server_none _ u' s' now _ h1 ?_
    rw [alookup_ainsert_ne s s' now _ hsne]
    exact hfiltered
  · have h1 := recordJoin_lookup_other st u p s now ku hk
    rw [hku] at h1
    rw [← hlow] at h1
    refine checkJoin_of_server_none _ u' s' now _ h1 ?_
    exact hfiltered

/-- Witness for C3: recording `"alice"` prunes the stale `("old", 0)`
entry of the unrelated session `"bob"`, whose `checkJoin` then misses. -/
theorem C3_witness :
    checkJoin (recordJoin [("bob", { uuid := "B", servers := [("old", 0)] })]
        "alice" "P" "srv" 100).1 "bob" "old" 100 = none :=
  (C3_recordJoin_spec [("bob", { uuid := "B", servers := [("old", 0)] })]
      "alice" "P" "srv" 100 (by decide)).2.1
    "bob" "bob" "old" { uuid := "B", servers := [("old", 0)] } 0
    (by decide) (by decide) (by decide) (by decide) (Or.inl (by decide))

/-- C10: when a session already exists for the lower-cased username,
`recordJoin` keeps its stored profileId even when called with a different
one — only the servers map changes (pruned, plus the new
`serverToken ↦ now` entry) — and any later successful `checkJoin` for that
username yields the originally stored profileId, never the newly asserted
one. -/
theorem C10_existing_profileId_kept
    (st : Store) (u p s : String) (now : Nat) (sess : Session)
    (h : alookup (lowercase u) st = some sess) :
    alookup (lowercase u) (recordJoin st u p s now).1 =
      some { uuid := sess.uuid,
             servers := ainsert s now (sess.servers.filter (fun q => now - q.2 ≤ 60)) } ∧
    (∀ s' now' x, checkJoin (recordJoin st u p s now).1 u s' now' = some x →
      x = sess.uuid) := by
  have h1 := recordJoin_lookup_self_some st u p s now sess h
  refine ⟨h1, ?_⟩
  intro s' now' x hx
  rw [checkJoin_of_lookup_some _ u s' now' _ h1] at hx
  rcases h2 : alookup s'
      (ainsert s now (sess.servers.filter (fun q => now - q.2 ≤ 60))) with _ | t
  · rw [h2] at hx
    exact absurd hx (by simp)
  · rw [h2] at hx
    have hx' : (if wsub now' 60 ≤ t then some sess.uuid else none) = some x := hx
    by_cases h3 : wsub now' 60 ≤ t
    · rw [if_pos h3, Option.some.injEq] at hx'
      exact hx'.symm
    · rw [if_neg h3] at hx'
      exact absurd hx' (by simp)

/-- Witness for C10: the session for `"alice"` stored uuid `"X"`;
recording with asserted `"Y"` keeps `"X"`. -/
theorem C10_witness :
    alookup (lowercase "Alice")
        (recordJoin [("alice", { uuid := "X", servers := [] })] "Alice" "Y" "srv" 100).1 =
      some { uuid := "X",
             servers := ainsert "srv" 100
               (([] : List (String × Nat)).filter (fun q => 100 - q.2 ≤ 60)) } :=
  (C10_existing_profileId_kept [("alice", { uuid := "X", servers := [] })]
      "Alice" "Y" "srv" 100 { uuid := "X", servers := [] } (by decide)).1

example : lowercase "Alice" = "alice" := by decide

example :
    checkJoin [("alice", { uuid := "X", servers := [("srv", 40)] })] "Alice" "srv" 100
      = some "X" := by decide

example :
    checkJoin [("alice", { uuid := "X", servers := [("srv", 39)] })] "Alice" "srv" 100
      = none := by decide

example :
    checkJoin [("alice", { uuid := "X", servers := [("srv", 0)] })] "alice" "srv" 0
      = none := by decide

example :
    (recordJoin [] "Alice" "X" "srv" 100).1
      = [("alice", { uuid := "X", servers := [("srv", 100)] })] := by decide

end Ygg
